import Mathlib

/-!
Verification of the navier_stokes_cylinder notebook
(src/notebooks/navier_stokes_cylinder.ipynb).

The notebook is configuration-and-glue code around an external
finite-element framework: it builds a CSG geometry, defines boundary
conditions and solver parameters, assembles three system matrices once,
and drives a fixed-step time loop in which three right-hand sides are
assembled, boundary conditions are applied, three linear solves are
performed, and output files are written at intervals.

We embed the script shallowly as an explicit trace of the framework
calls it performs.  The framework calls themselves (assemble, solve,
file writes) are opaque events; what the notebook controls — and what
the claims are about — is which calls are made, with which arguments,
in which order.  Exact rational arithmetic models the time variable
(the claims concern repeated addition of the same increment, which the
rational model expresses faithfully).
-/

namespace NSCylinder

/-! ### Geometry (cell-4)

`channel = Rectangle(Point(0, 0), Point(2.2, 0.41))`
`cylinder = Circle(Point(0.2, 0.2), 0.05, 16)`
`domain = channel - cylinder`
-/

/-- A 2D point with exact rational coordinates. -/
structure Point2 where
  x : ℚ
  y : ℚ
deriving DecidableEq, Repr

/-- Constructive solid geometry terms, as provided by the meshing
library: two primitives used by the notebook and the three boolean set
operations the library exposes (`+` union, `*` intersection, `-`
difference). -/
inductive CSG where
  | Rectangle (p0 p1 : Point2)
  | Circle (center : Point2) (radius : ℚ) (segments : Nat)
  | union (a b : CSG)
  | inter (a b : CSG)
  | diff (a b : CSG)
deriving DecidableEq, Repr

/-- `channel = Rectangle(Point(0, 0), Point(2.2, 0.41))` -/
def channel : CSG := CSG.Rectangle ⟨0, 0⟩ ⟨2.2, 0.41⟩

/-- `cylinder = Circle(Point(0.2, 0.2), 0.05, 16)` (the geometric
primitive of cell-4; the boundary-condition string of cell-11 reuses the
name, so the geometric one carries a `_geom` suffix here). -/
def cylinder_geom : CSG := CSG.Circle ⟨0.2, 0.2⟩ 0.05 16

/-- `domain = channel - cylinder` -/
def domain : CSG := CSG.diff channel cylinder_geom

/-- Number of `union` nodes in a CSG term. -/
def CSG.unionCount : CSG → Nat
  | .Rectangle _ _ => 0
  | .Circle _ _ _ => 0
  | .union a b => a.unionCount + b.unionCount + 1
  | .inter a b => a.unionCount + b.unionCount
  | .diff a b => a.unionCount + b.unionCount

/-- Number of `inter` nodes in a CSG term. -/
def CSG.interCount : CSG → Nat
  | .Rectangle _ _ => 0
  | .Circle _ _ _ => 0
  | .union a b => a.interCount + b.interCount
  | .inter a b => a.interCount + b.interCount + 1
  | .diff a b => a.interCount + b.interCount

/-- Number of `diff` nodes in a CSG term. -/
def CSG.diffCount : CSG → Nat
  | .Rectangle _ _ => 0
  | .Circle _ _ _ => 0
  | .union a b => a.diffCount + b.diffCount
  | .inter a b => a.diffCount + b.diffCount + 1
  | .diff a b => a.diffCount + b.diffCount + 1

/-- Number of primitive leaves (rectangles and circles) in a CSG term. -/
def CSG.primCount : CSG → Nat
  | .Rectangle _ _ => 1
  | .Circle _ _ _ => 1
  | .union a b => a.primCount + b.primCount
  | .inter a b => a.primCount + b.primCount
  | .diff a b => a.primCount + b.primCount

/-! ### Parameters (cell-16)

`mu = 0.001`, `rho = 1`, `T = 5.0`, `num_steps = 5000`,
`dt = T / num_steps`.
-/

def mu : ℚ := 0.001

def rho : ℚ := 1

def T : ℚ := 5.0

def num_steps : Nat := 5000

def dt : ℚ := T / (num_steps : ℚ)

/-! ### Boundary conditions (cells 11 and 13) -/

/-- The four boundary regions named by the predicate strings of
cell-11: `inflow = near(x[0], 0)`, `outflow = near(x[0], 2.2)`,
`walls = near(x[1], 0) || near(x[1], 0.41)`,
`cylinder = on_boundary && 0.1 < x[0] < 0.3 && 0.1 < x[1] < 0.3`. -/
inductive BoundaryRegion where
  | inflow
  | outflow
  | walls
  | cylinder
deriving DecidableEq, Repr

/-- The function space a Dirichlet condition constrains: `V` is the
vector velocity space, `Q` the scalar pressure space (cell-9). -/
inductive FuncSpace where
  | V
  | Q
deriving DecidableEq, Repr

/-- A Dirichlet boundary condition as configured by the notebook: the
space it acts on, the prescribed value as a function of the spatial
point (components listed; two components on `V`, one on `Q`), and the
boundary region it applies to. -/
structure DirichletBC where
  space : FuncSpace
  value : ℚ → ℚ → List ℚ
  region : BoundaryRegion

/-- `inflow_profile = ('4.0*1.5*x[1]*(0.41 - x[1]) / pow(0.41, 2)', '0')`
as a function of the point `(x, y)`. -/
def inflow_profile (_x y : ℚ) : List ℚ :=
  [4.0 * 1.5 * y * (0.41 - y) / (0.41 : ℚ) ^ 2, 0]

/-- `bcu_inflow = DirichletBC(V, Expression(inflow_profile, degree=2), inflow)` -/
def bcu_inflow : DirichletBC := ⟨.V, inflow_profile, .inflow⟩

/-- `bcu_walls = DirichletBC(V, Constant((0, 0)), walls)` -/
def bcu_walls : DirichletBC := ⟨.V, fun _ _ => [0, 0], .walls⟩

/-- `bcu_cylinder = DirichletBC(V, Constant((0, 0)), cylinder)` -/
def bcu_cylinder : DirichletBC := ⟨.V, fun _ _ => [0, 0], .cylinder⟩

/-- `bcp_outflow = DirichletBC(Q, Constant(0), outflow)` -/
def bcp_outflow : DirichletBC := ⟨.Q, fun _ _ => [0], .outflow⟩

/-- Names of the four Dirichlet conditions; trace events refer to
conditions by name so that event equality stays decidable. -/
inductive BCName where
  | bcu_inflow
  | bcu_walls
  | bcu_cylinder
  | bcp_outflow
deriving DecidableEq, Repr

/-- The condition each name denotes. -/
def bcDef : BCName → DirichletBC
  | .bcu_inflow => bcu_inflow
  | .bcu_walls => bcu_walls
  | .bcu_cylinder => bcu_cylinder
  | .bcp_outflow => bcp_outflow

/-- `bcu = [bcu_inflow, bcu_walls, bcu_cylinder]` -/
def bcu : List BCName := [.bcu_inflow, .bcu_walls, .bcu_cylinder]

/-- `bcp = [bcp_outflow]` -/
def bcp : List BCName := [.bcp_outflow]

/-! ### Trace events -/

/-- The three pre-assembled system matrices (cell-18). -/
inductive Mat where
  | A1
  | A2
  | A3
deriving DecidableEq, Repr

/-- The three per-step right-hand-side vectors (cell-29). -/
inductive Vec where
  | b1
  | b2
  | b3
deriving DecidableEq, Repr

/-- The solution `Function` objects whose coefficient vectors the loop
reads and writes. -/
inductive Field where
  | u_
  | p_
  | u_k
  | p_k
deriving DecidableEq, Repr

/-- Krylov method names passed to `solve` (cell-29). -/
inductive KrylovMethod where
  | bicgstab
  | cg
deriving DecidableEq, Repr

/-- Preconditioner names passed to `solve` (cell-29). -/
inductive Precond where
  | ilu
  | sor
deriving DecidableEq, Repr

/-- The visualization output files created in cell-25: XDMF when HDF5 is
available, PVD otherwise. -/
inductive VisFile where
  | xdmf_u
  | xdmf_p
  | pvd_u
  | pvd_p
deriving DecidableEq, Repr

/-- The two `TimeSeries` storage objects created in cell-27. -/
inductive TSName where
  | velocity_series
  | pressure_series
deriving DecidableEq, Repr

/-- One call from the script into the external framework.  `solve`
carries the method and preconditioner as `Option`s: `none` would mean
the default direct solver (no method argument passed); the script always
passes explicit choices. -/
inductive Event where
  | assembleMatrix (A : Mat)
  | applyBCMatrix (bc : BCName) (A : Mat)
  | assembleVector (b : Vec)
  | applyBCVector (bc : BCName) (b : Vec)
  | solveSys (A : Mat) (target : Field) (b : Vec)
      (method : Option KrylovMethod) (pc : Option Precond)
  | createVisFile (f : VisFile)
  | createTimeSeries (ts : TSName)
  | writeVis (f : VisFile) (fld : Field) (t : ℚ)
  | storeTimeSeries (ts : TSName) (fld : Field) (t : ℚ)
  | printUMax
  | assign (dst src : Field)
  | progressUpdate (frac : ℚ)
deriving DecidableEq, Repr

/-! ### The time variable (cell-29)

`t = 0` before the loop; each iteration begins with `t += dt`.
`t_after k` is the value of `t` after the `t += dt` of iteration `k`
(so also during the rest of iteration `k`).
-/

def t_after : Nat → ℚ
  | 0 => 0
  | Nat.succ k => t_after k + dt

/-- `out_interval = num_steps / 100` (integer division; `5000 / 100 = 50`,
exact, so the integer model agrees with Python's division here). -/
def out_interval : Nat := num_steps / 100

/-! ### The script trace -/

/-- Events performed before the time loop, in program order:
cell-18 assembles `A1`, applies `bcu` to `A1`, assembles `A2`, applies
`bcp` to `A2`, assembles `A3` (no condition applied to `A3`); cell-25
creates the visualization files (XDMF if HDF5 is available, else PVD);
cell-27 creates the two `TimeSeries` objects only if HDF5 is
available. -/
def preLoopEvents (hdf5 : Bool) : List Event :=
  [Event.assembleMatrix .A1]
    ++ bcu.map (fun bc => Event.applyBCMatrix bc .A1)
    ++ [Event.assembleMatrix .A2]
    ++ bcp.map (fun bc => Event.applyBCMatrix bc .A2)
    ++ [Event.assembleMatrix .A3]
    ++ (if hdf5 then
          [Event.createVisFile .xdmf_u, Event.createVisFile .xdmf_p]
        else
          [Event.createVisFile .pvd_u, Event.createVisFile .pvd_p])
    ++ (if hdf5 then
          [Event.createTimeSeries .velocity_series,
           Event.createTimeSeries .pressure_series]
        else [])

/-- The events of iteration `k` of the time loop (cell-29), for
`k` ranging over `1, …, num_steps`:

```
t += dt
b1 = assemble(L1); [bc.apply(b1) for bc in bcu]
solve(A1, u_.vector(), b1, 'bicgstab', 'ilu')
b2 = assemble(L2); [bc.apply(b2) for bc in bcp]
solve(A2, p_.vector(), b2, 'bicgstab', 'ilu')
b3 = assemble(L3)
solve(A3, u_.vector(), b3, 'cg', 'sor')
if k%out_interval ==0 or k==num_steps: print and write u_, p_ at t
u_k.assign(u_); p_k.assign(p_)
progress.update(t / T)
```
-/
def stepEvents (hdf5 : Bool) (k : Nat) : List Event :=
  [Event.assembleVector .b1]
    ++ bcu.map (fun bc => Event.applyBCVector bc .b1)
    ++ [Event.solveSys .A1 .u_ .b1 (some .bicgstab) (some .ilu)]
    ++ [Event.assembleVector .b2]
    ++ bcp.map (fun bc => Event.applyBCVector bc .b2)
    ++ [Event.solveSys .A2 .p_ .b2 (some .bicgstab) (some .ilu)]
    ++ [Event.assembleVector .b3]
    ++ [Event.solveSys .A3 .u_ .b3 (some .cg) (some .sor)]
    ++ (if k % out_interval = 0 ∨ k = num_steps then
          [Event.printUMax]
            ++ (if hdf5 then
                  [Event.writeVis .xdmf_u .u_ (t_after k),
                   Event.writeVis .xdmf_p .p_ (t_after k)]
                else
                  [Event.writeVis .pvd_u .u_ (t_after k),
                   Event.writeVis .pvd_p .p_ (t_after k)])
        else [])
    ++ [Event.assign .u_k .u_, Event.assign .p_k .p_,
        Event.progressUpdate (t_after k / T)]

/-- The whole script trace: pre-loop events, then the loop body for
`k in range(1, num_steps+1)`. -/
def scriptEvents (hdf5 : Bool) : List Event :=
  preLoopEvents hdf5
    ++ (List.range num_steps).flatMap (fun i => stepEvents hdf5 (i + 1))

/-! ### Event classifiers -/

/-- Is the event a linear solve? -/
def Event.isSolve : Event → Bool
  | .solveSys _ _ _ _ _ => true
  | _ => false

/-- Is the event a right-hand-side vector assembly? -/
def Event.isAssembleVec : Event → Bool
  | .assembleVector _ => true
  | _ => false

/-- Is the event a matrix assembly or a boundary-condition application
to a matrix (i.e., any event that builds or modifies a matrix)? -/
def Event.isMatrixEvent : Event → Bool
  | .assembleMatrix _ => true
  | .applyBCMatrix _ _ => true
  | _ => false

/-- Is the event a visualization-file write? -/
def Event.isWrite : Event → Bool
  | .writeVis _ _ _ => true
  | _ => false

/-- Is the event a `TimeSeries` store? -/
def Event.isStoreTS : Event → Bool
  | .storeTimeSeries _ _ _ => true
  | _ => false

/-- Is the event a `TimeSeries` creation? -/
def Event.isCreateTS : Event → Bool
  | .createTimeSeries _ => true
  | _ => false

/-- Does the event apply a boundary condition to matrix `A3` or to
vector `b3`? -/
def Event.touchesStep3BC : Event → Bool
  | .applyBCMatrix _ .A3 => true
  | .applyBCVector _ .b3 => true
  | _ => false

/-- Is the event a vector assembly or a solve (used to express the
interleaving assemble-then-solve order)? -/
def Event.isAsmVecOrSolve (e : Event) : Bool :=
  e.isAssembleVec || e.isSolve

/-- Is the event a boundary-condition application to a vector or a
solve (used to express apply-before-solve order)? -/
def Event.isApplyVecOrSolve : Event → Bool
  | .applyBCVector _ _ => true
  | .solveSys _ _ _ _ _ => true
  | _ => false

end NSCylinder

namespace NSCylinder

/-! ### Helper lemmas -/

/-- The time variable after `k` iterations equals `k * dt`. -/
theorem t_after_eq (k : Nat) : t_after k = k * dt := by
  induction k with
  | zero => simp [t_after]
  | succ n ih => simp [t_after, ih]; ring

/-- The time variable after `k` iterations is the sum of `k` copies of
`dt`. -/
theorem t_after_eq_sum_replicate (k : Nat) :
    t_after k = (List.replicate k dt).sum := by
  rw [t_after_eq, List.sum_replicate, nsmul_eq_mul]

/-- Per-step filter of `touchesStep3BC` is empty. -/
theorem step_filter_touchesStep3BC (hdf5 : Bool) (k : Nat) :
    (stepEvents hdf5 k).filter Event.touchesStep3BC = [] := by
  cases hdf5 <;> unfold stepEvents <;> split <;> rfl

/-- Per-step filter of matrix events is empty. -/
theorem step_filter_matrix (hdf5 : Bool) (k : Nat) :
    (stepEvents hdf5 k).filter Event.isMatrixEvent = [] := by
  cases hdf5 <;> unfold stepEvents <;> split <;> rfl

/-- Per-step filter of time-series stores is empty. -/
theorem step_filter_storeTS (hdf5 : Bool) (k : Nat) :
    (stepEvents hdf5 k).filter Event.isStoreTS = [] := by
  cases hdf5 <;> unfold stepEvents <;> split <;> rfl

/-- Filtering the whole script trace by a predicate that holds nowhere
in the loop body reduces to filtering the pre-loop events. -/
theorem script_filter_of_step_empty (hdf5 : Bool) (p : Event → Bool)
    (h : ∀ k, (stepEvents hdf5 k).filter p = []) :
    (scriptEvents hdf5).filter p = (preLoopEvents hdf5).filter p := by
  unfold scriptEvents
  rw [List.filter_append, List.filter_flatMap]
  simp [h]

end NSCylinder

namespace NSCylinder

/-- Does a solve event omit the explicit method or preconditioner
(i.e., would it fall back to the framework default)? -/
def Event.usesDefaultSolver : Event → Bool
  | .solveSys _ _ _ none _ => true
  | .solveSys _ _ _ _ none => true
  | _ => false

/-- Extract from a solve event the matrix together with the chosen
method and preconditioner. -/
def solveChoiceOf : Event → Option (Mat × Option KrylovMethod × Option Precond)
  | .solveSys A _ _ m pc => some (A, m, pc)
  | _ => none

/-- Per-step solves never use the default solver. -/
theorem step_filter_defaultSolver (hdf5 : Bool) (k : Nat) :
    (stepEvents hdf5 k).filter Event.usesDefaultSolver = [] := by
  cases hdf5 <;> unfold stepEvents <;> split <;> rfl

/-- C1: every iteration of the time loop performs exactly three linear
solves, in order: system `A1` with right-hand side `b1` writing `u_`,
then `A2` with `b2` writing `p_`, then `A3` with `b3` overwriting `u_`;
no other solves occur in an iteration. -/
theorem three_solves_per_step (hdf5 : Bool) (k : Nat) :
    (stepEvents hdf5 k).filter Event.isSolve =
      [Event.solveSys .A1 .u_ .b1 (some .bicgstab) (some .ilu),
       Event.solveSys .A2 .p_ .b2 (some .bicgstab) (some .ilu),
       Event.solveSys .A3 .u_ .b3 (some .cg) (some .sor)] := by
  cases hdf5 <;> unfold stepEvents <;> split <;> rfl

/-- C2: every iteration assembles the right-hand sides of the three
sub-problems it solves, each assembly immediately preceding its solve in
the filtered assemble/solve subsequence: `b1` before the `A1` solve,
`b2` before the `A2` solve, `b3` before the `A3` solve. -/
theorem assemble_then_solve_per_step (hdf5 : Bool) (k : Nat) :
    (stepEvents hdf5 k).filter Event.isAsmVecOrSolve =
      [Event.assembleVector .b1,
       Event.solveSys .A1 .u_ .b1 (some .bicgstab) (some .ilu),
       Event.assembleVector .b2,
       Event.solveSys .A2 .p_ .b2 (some .bicgstab) (some .ilu),
       Event.assembleVector .b3,
       Event.solveSys .A3 .u_ .b3 (some .cg) (some .sor)] := by
  cases hdf5 <;> unfold stepEvents <;> split <;> rfl

/-- C3: the domain is the set-difference of exactly two primitives —
the rectangle with corners (0,0) and (2.2,0.41) minus the circle
centered at (0.2,0.2) of radius 0.05 — with one difference node and no
union or intersection node anywhere in the CSG term. -/
theorem domain_is_rect_minus_circle :
    domain = CSG.diff (CSG.Rectangle ⟨0, 0⟩ ⟨2.2, 0.41⟩)
                      (CSG.Circle ⟨0.2, 0.2⟩ 0.05 16) ∧
    domain.diffCount = 1 ∧ domain.unionCount = 0 ∧
    domain.interCount = 0 ∧ domain.primCount = 2 :=
  ⟨rfl, rfl, rfl, rfl, rfl⟩

/-- C4: the step size is `dt = T / num_steps = 5.0 / 5000 = 1/1000`,
fixed once; every iteration advances the time variable by exactly `dt`,
so after iteration `k` the time equals the sum of `k` copies of `dt`. -/
theorem fixed_step_time_loop (k : Nat) :
    dt = T / (num_steps : ℚ) ∧ T = 5 ∧ num_steps = 5000 ∧
    dt = 1 / 1000 ∧ t_after 0 = 0 ∧
    (∀ j, t_after (j + 1) = t_after j + dt) ∧
    t_after k = (List.replicate k dt).sum := by
  refine ⟨rfl, ?_, rfl, ?_, rfl, fun j => rfl, t_after_eq_sum_replicate k⟩
  · norm_num [T]
  · norm_num [dt, T, num_steps]

/-- C5: every solve of every iteration passes an explicit Krylov method
and preconditioner — `A1` and `A2` with bicgstab/ilu, `A3` with cg/sor —
and no solve anywhere in the script falls back to the default direct
solver; the choices are the same in every iteration. -/
theorem solver_choices (hdf5 : Bool) (k : Nat) :
    (stepEvents hdf5 k).filterMap solveChoiceOf =
      [(.A1, some .bicgstab, some .ilu),
       (.A2, some .bicgstab, some .ilu),
       (.A3, some .cg, some .sor)] ∧
    (scriptEvents hdf5).filter Event.usesDefaultSolver = [] := by
  constructor
  · cases hdf5 <;> unfold stepEvents <;> split <;> rfl
  · rw [script_filter_of_step_empty hdf5 _ (step_filter_defaultSolver hdf5)]
    cases hdf5 <;> rfl

/-- C6: `out_interval = num_steps / 100 = 50`; iteration `k` writes to
the visualization files exactly when `k` is a multiple of `out_interval`
or `k = num_steps`, and then it writes both the velocity `u_` and the
pressure `p_` together with the current time; no other iteration writes
anything. -/
theorem write_schedule (hdf5 : Bool) (k : Nat) :
    out_interval = num_steps / 100 ∧ out_interval = 50 ∧
    (k % out_interval = 0 ↔ out_interval ∣ k) ∧
    (stepEvents hdf5 k).filter Event.isWrite =
      (if k % out_interval = 0 ∨ k = num_steps then
         [Event.writeVis (if hdf5 then VisFile.xdmf_u else VisFile.pvd_u)
            Field.u_ (t_after k),
          Event.writeVis (if hdf5 then VisFile.xdmf_p else VisFile.pvd_p)
            Field.p_ (t_after k)]
       else []) := by
  refine ⟨rfl, rfl, ?_, ?_⟩
  · simp only [out_interval, num_steps]
    omega
  · by_cases h : k % out_interval = 0 ∨ k = num_steps <;>
      cases hdf5 <;>
      simp [stepEvents, h, Event.isWrite, List.filter_append, bcu, bcp]

/-- C7: the configured boundary conditions are exactly `bcu =
[inflow, walls, cylinder]` on the velocity space and `bcp = [outflow]`
on the pressure space, with the parabolic inflow profile
`4.0*1.5*y*(0.41-y)/0.41²` in x and 0 in y, zero velocity on walls and
cylinder, and zero pressure at the outflow; and in every time step each
condition of `bcu` is applied to `b1` before the step-1 solve and each
condition of `bcp` is applied to `b2` before the step-2 solve. -/
theorem boundary_conditions (hdf5 : Bool) (k : Nat) (x y : ℚ) :
    bcu = [BCName.bcu_inflow, BCName.bcu_walls, BCName.bcu_cylinder] ∧
    bcp = [BCName.bcp_outflow] ∧
    (bcDef .bcu_inflow).space = .V ∧
    (bcDef .bcu_inflow).region = .inflow ∧
    (bcDef .bcu_inflow).value x y =
      [4.0 * 1.5 * y * (0.41 - y) / (0.41 : ℚ) ^ 2, 0] ∧
    (bcDef .bcu_walls).space = .V ∧
    (bcDef .bcu_walls).region = .walls ∧
    (bcDef .bcu_walls).value x y = [0, 0] ∧
    (bcDef .bcu_cylinder).space = .V ∧
    (bcDef .bcu_cylinder).region = .cylinder ∧
    (bcDef .bcu_cylinder).value x y = [0, 0] ∧
    (bcDef .bcp_outflow).space = .Q ∧
    (bcDef .bcp_outflow).region = .outflow ∧
    (bcDef .bcp_outflow).value x y = [0] ∧
    (stepEvents hdf5 k).filter Event.isApplyVecOrSolve =
      [Event.applyBCVector .bcu_inflow .b1,
       Event.applyBCVector .bcu_walls .b1,
       Event.applyBCVector .bcu_cylinder .b1,
       Event.solveSys .A1 .u_ .b1 (some .bicgstab) (some .ilu),
       Event.applyBCVector .bcp_outflow .b2,
       Event.solveSys .A2 .p_ .b2 (some .bicgstab) (some .ilu),
       Event.solveSys .A3 .u_ .b3 (some .cg) (some .sor)] := by
  refine ⟨rfl, rfl, rfl, rfl, rfl, rfl, rfl, rfl, rfl, rfl, rfl, rfl,
          rfl, rfl, ?_⟩
  cases hdf5 <;> unfold stepEvents <;> split <;> rfl

/-- C8: the matrices `A1`, `A2`, `A3` are assembled exactly once, before
the loop, with the velocity conditions applied to `A1` and the pressure
condition applied to `A2` there; no iteration contains any matrix
assembly or matrix boundary-condition application, so the whole script's
matrix events are precisely the pre-loop ones. -/
theorem matrices_assembled_once (hdf5 : Bool) (k : Nat) :
    (preLoopEvents hdf5).filter Event.isMatrixEvent =
      [Event.assembleMatrix .A1,
       Event.applyBCMatrix .bcu_inflow .A1,
       Event.applyBCMatrix .bcu_walls .A1,
       Event.applyBCMatrix .bcu_cylinder .A1,
       Event.assembleMatrix .A2,
       Event.applyBCMatrix .bcp_outflow .A2,
       Event.assembleMatrix .A3] ∧
    (stepEvents hdf5 k).filter Event.isMatrixEvent = [] ∧
    (scriptEvents hdf5).filter Event.isMatrixEvent =
      (preLoopEvents hdf5).filter Event.isMatrixEvent := by
  refine ⟨?_, step_filter_matrix hdf5 k,
          script_filter_of_step_empty hdf5 _ (step_filter_matrix hdf5)⟩
  cases hdf5 <;> rfl

/-- C9: nowhere in the script — in particular in no time step — is a
boundary condition applied to `A3` or `b3`; yet each step does apply
conditions to `b1` (step 1) and `b2` (step 2). -/
theorem no_bc_in_step3 (hdf5 : Bool) (k : Nat) :
    (scriptEvents hdf5).filter Event.touchesStep3BC = [] ∧
    (stepEvents hdf5 k).filter Event.touchesStep3BC = [] ∧
    Event.applyBCVector .bcu_inflow .b1 ∈ stepEvents hdf5 k ∧
    Event.applyBCVector .bcp_outflow .b2 ∈ stepEvents hdf5 k := by
  refine ⟨?_, step_filter_touchesStep3BC hdf5 k, ?_, ?_⟩
  · rw [script_filter_of_step_empty hdf5 _ (step_filter_touchesStep3BC hdf5)]
    cases hdf5 <;> rfl
  · cases hdf5 <;> unfold stepEvents <;> split <;> simp [bcu]
  · cases hdf5 <;> unfold stepEvents <;> split <;> simp [bcp]

/-- C10: with HDF5 available, the two `TimeSeries` objects are created
before the loop, but no event of any iteration — indeed of the whole
script — stores a snapshot to a time series. -/
theorem timeseries_created_never_stored (k : Nat) :
    (preLoopEvents true).filter Event.isCreateTS =
      [Event.createTimeSeries .velocity_series,
       Event.createTimeSeries .pressure_series] ∧
    (stepEvents true k).filter Event.isStoreTS = [] ∧
    (scriptEvents true).filter Event.isStoreTS = [] := by
  refine ⟨rfl, step_filter_storeTS true k, ?_⟩
  rw [script_filter_of_step_empty true _ (step_filter_storeTS true)]
  rfl

end NSCylinder
